import Mathlib

set_option linter.unusedVariables false

/-!
Shallow embedding of the task-configuration resolution core of ContainerTracer
(`src/runner/driver/docker-driver/docker-info.c`).

The JSON library, `generic_strip_string`, the scheduler validator, `lstat`,
`getpid` and the `hsearch` table are external to the file under `src/`; they
are modelled from the specification's description of their contracts, as noted
on each definition.  Everything else is translated line by line from
`docker-info.c`.
-/

/-- Modelled from the spec: a parsed JSON value as consumed by the Field
Resolver — either an integer or a string (the two shapes the resolver
extracts). -/
inductive JValue where
  | jint : Int → JValue
  | jstr : String → JValue
deriving DecidableEq, Repr

/-- A JSON object node: an association list from keys to values. -/
abbrev JObj := List (String × JValue)

/-- Modelled from the spec: `json_object_object_get_ex` — look a key up in a
JSON object node, returning the stored value when present. -/
def jlookup : JObj → String → Option JValue
  | [], _ => none
  | (k, v) :: t, key => if k = key then some v else jlookup t key

/-- Modelled from the spec: `json_object_get_int` — coerce a JSON value to an
integer; non-numeric JSON values coerce to 0. -/
def json_object_get_int : JValue → Int
  | .jint n => n
  | .jstr _ => 0

/-- Modelled from the spec: `json_object_get_string` — render a JSON value as
a string. -/
def json_object_get_string : JValue → String
  | .jint n => toString n
  | .jstr s => s

/-- Storing an `int` into an `unsigned int` member reduces it modulo 2^32. -/
def uint32_of_int (n : Int) : Nat := (n % (2 ^ 32 : Int)).toNat

/-- `snprintf(member, size, "%s", src)`: copies at most `size - 1` characters
of `src` and terminates; with `size = 0` the destination is untouched. -/
def snprintf_str (size : Nat) (dst src : String) : String :=
  if size = 0 then dst else String.mk (src.data.take (size - 1))

/-- Modelled from the spec: `generic_strip_string` (defined outside `src/`)
strips a leading/trailing quote-character artifact left by upstream JSON
quoting. -/
def generic_strip_string (s : String) (c : Char) : String :=
  let l := s.data
  let l := if l.head? = some c then l.tail else l
  let l := if l.getLast? = some c then l.dropLast else l
  String.mk l

/-- Modelled from the spec: the print-control flag values declared in
`docker-driver.h` (header not under `src/`); only their distinctness is
used. -/
def DOCKER_PRINT_NONE : Nat := 0

/-- Modelled from the spec: see `DOCKER_PRINT_NONE`. -/
def DOCKER_ERROR_PRINT : Nat := 1

/-- Modelled from the spec: the classifier result values declared in
`docker-driver.h` (header not under `src/`); only their distinctness is
used. -/
def DOCKER_SYNTH : Nat := 1

/-- Modelled from the spec: see `DOCKER_SYNTH`. -/
def DOCKER_NOT_SYNTH : Nat := 0

/-- The fixed registry of well-known synthetic trace forms
(`global_synth_type` in `docker-info.c`, lines 40–43). -/
def global_synth_type : List String :=
  ["rand_read", "rand_write", "rand_mixed", "seq_read", "seq_write", "seq_mixed"]

/-- `docker_is_synth_type` (`docker-info.c`, lines 107–116): walk the
`global_synth_type` table comparing with `strcmp`; any exact match is
`DOCKER_SYNTH`, otherwise `DOCKER_NOT_SYNTH`. -/
def docker_is_synth_type (trace_data_path : String) : Nat :=
  if trace_data_path ∈ global_synth_type then DOCKER_SYNTH else DOCKER_NOT_SYNTH

/-- `docker_info_int_value_set` (`docker-info.c`, lines 56–69): read `key`
from `setting`, coerce to integer and store it; returns the C return code
paired with the (possibly unchanged) member value.  The `is_print` flag only
controls error printing. -/
def docker_info_int_value_set (setting : JObj) (key : String) (member : Nat)
    (is_print : Nat) : Int × Nat :=
  match jlookup setting key with
  | none => (-22, member)
  | some v => (0, uint32_of_int (json_object_get_int v))

/-- `docker_info_str_value_set` (`docker-info.c`, lines 83–97): read `key`
from `setting`, copy it into the fixed-capacity member buffer with
`snprintf`, then strip quote artifacts; returns the C return code paired with
the (possibly unchanged) member value. -/
def docker_info_str_value_set (setting : JObj) (key : String) (member : String)
    (size : Nat) (is_print : Nat) : Int × String :=
  match jlookup setting key with
  | none => (-22, member)
  | some v =>
    (0, generic_strip_string (snprintf_str size member (json_object_get_string v)) '\"')

/-- Modelled from the spec: the buffer capacities of the string members of
`struct docker_info` (declared in `docker-driver.h`, not under `src/`) —
bounded strings of unspecified capacity, kept as parameters. -/
structure Sizes where
  prefix_cgroup_name : Nat
  scheduler : Nat
  trace_replay_path : Nat
  device : Nat
  trace_data_path : Nat
  cgroup_id : Nat
deriving Repr

/-- The task descriptor `struct docker_info` (fields as used by
`docker-info.c`; the struct itself is declared in `docker-driver.h`).
Integer members are `unsigned int` (modelled as `Nat` reduced mod 2^32 on
store); `mqid`/`semid`/`shmid` are signed handles; `next` is the intrusive
chain link. -/
structure docker_info where
  time : Nat
  q_depth : Nat
  nr_thread : Nat
  weight : Nat
  trace_repeat : Nat
  wss : Nat
  utilization : Nat
  iosize : Nat
  prefix_cgroup_name : String
  scheduler : String
  trace_replay_path : String
  device : String
  trace_data_path : String
  cgroup_id : String
  ppid : Nat
  mqid : Int
  semid : Int
  shmid : Int
  next : Option Unit
deriving DecidableEq, Repr

/-- `memset(info, 0, sizeof(struct docker_info))`: the all-zero descriptor. -/
def docker_info.zero : docker_info :=
  { time := 0, q_depth := 0, nr_thread := 0, weight := 0, trace_repeat := 0
    wss := 0, utilization := 0, iosize := 0
    prefix_cgroup_name := "", scheduler := "", trace_replay_path := ""
    device := "", trace_data_path := "", cgroup_id := ""
    ppid := 0, mqid := 0, semid := 0, shmid := 0, next := none }

/-- Modelled from the spec: the Scheduler Compatibility Validator
(`docker_valid_scheduler_test` / `docker_has_weight_scheduler`, defined
outside `src/`): `valid` returns the non-negative kind index of a supported
scheduler name and a negative value for an unsupported one; `has_weight`
says whether a kind index is weight-aware. -/
structure SchedPolicy where
  valid : String → Int
  has_weight : Int → Bool

/-- Modelled from the spec: the process environment of one resolution run —
`lstat`-visible filesystem (`fs p = true` iff a file exists at `p`), the
resolving process id (`getpid`), and the scheduler policy. -/
structure Env where
  fs : String → Bool
  pid : Nat
  sched : SchedPolicy

/-- Modelled from the spec: the process-wide `hsearch` table keyed by cgroup
identifier — the Cgroup Identity Registry, a set of registered id strings. -/
abbrev Registry := List String

/-- `hsearch(item, FIND)`: is the key present in the registry? -/
def hsearch_find (reg : Registry) (key : String) : Bool :=
  key ∈ reg

/-- `hsearch(item, ENTER)`: register the key. -/
def hsearch_enter (reg : Registry) (key : String) : Registry :=
  key :: reg

/-- The configuration tree handed to resolution: a global-settings object and
the `task_option` array (absent when the key is missing). -/
structure Config where
  fields : JObj
  task_option : Option (List JObj)

/-- The failure kinds of resolution.  In the C source each failure path is
identified by its distinct `pr_info(ERROR, ...)` message; this type records
which path fired. -/
inductive RError where
  | MissingField : String → RError
  | IndexOutOfRange : Nat → RError
  | UnsupportedScheduler : String → RError
  | MissingWeight : RError
  | TraceSourceNotFound : String → RError
  | ExecutableNotFound : String → RError
  | DuplicateCgroupId : String → RError
deriving DecidableEq, Repr

/-- The trace-source existence check of `__docker_info_init`
(`docker-info.c`, lines 211–220): a non-synthetic `trace_data_path` must name
an existing file (`lstat`); a synthetic one is not probed. -/
def trace_source_check (fs : String → Bool) (trace_data_path : String) :
    Except RError Unit :=
  if docker_is_synth_type trace_data_path ≠ DOCKER_SYNTH then
    if ¬ fs trace_data_path then .error (.TraceSourceNotFound trace_data_path)
    else .ok ()
  else .ok ()

/-- The silent per-task re-pull block of `__docker_info_init`
(`docker-info.c`, lines 153–178): every field is re-read from the task-entry
node `tmp`, overriding the seeded global value; absence leaves the member
unchanged.  Note line 160: the `trace_repeat` key is stored into
`&info->weight`. -/
def task_soft_pull (sz : Sizes) (tmp : JObj) (info : docker_info) : docker_info :=
  let info := { info with time :=
    (docker_info_int_value_set tmp "time" info.time DOCKER_PRINT_NONE).2 }
  let info := { info with q_depth :=
    (docker_info_int_value_set tmp "q_depth" info.q_depth DOCKER_PRINT_NONE).2 }
  let info := { info with nr_thread :=
    (docker_info_int_value_set tmp "nr_thread" info.nr_thread DOCKER_PRINT_NONE).2 }
  let info := { info with weight :=
    (docker_info_int_value_set tmp "weight" info.weight DOCKER_PRINT_NONE).2 }
  -- line 160: the "trace_repeat" key is stored into &info->weight
  let info := { info with weight :=
    (docker_info_int_value_set tmp "trace_repeat" info.weight DOCKER_PRINT_NONE).2 }
  let info := { info with wss :=
    (docker_info_int_value_set tmp "wss" info.wss DOCKER_PRINT_NONE).2 }
  let info := { info with utilization :=
    (docker_info_int_value_set tmp "utilization" info.utilization DOCKER_PRINT_NONE).2 }
  let info := { info with iosize :=
    (docker_info_int_value_set tmp "iosize" info.iosize DOCKER_PRINT_NONE).2 }
  let info := { info with prefix_cgroup_name :=
    (docker_info_str_value_set tmp "prefix_cgroup_name" info.prefix_cgroup_name
      sz.prefix_cgroup_name DOCKER_PRINT_NONE).2 }
  let info := { info with scheduler :=
    (docker_info_str_value_set tmp "scheduler" info.scheduler
      sz.scheduler DOCKER_PRINT_NONE).2 }
  let info := { info with trace_replay_path :=
    (docker_info_str_value_set tmp "trace_replay_path" info.trace_replay_path
      sz.trace_replay_path DOCKER_PRINT_NONE).2 }
  { info with device :=
    (docker_info_str_value_set tmp "device" info.device
      sz.device DOCKER_PRINT_NONE).2 }

/-- The validation tail of `__docker_info_init` (`docker-info.c`, lines
179–236): scheduler validation, the loud weight requirement for weight-aware
kinds, the loud `trace_data_path`/`cgroup_id` pulls, the trace-source check,
pid recording, and duplicate-rejecting registration. -/
def task_checks (env : Env) (sz : Sizes) (tmp : JObj) (info : docker_info)
    (reg : Registry) : Except RError docker_info × Registry :=
  let ret := env.sched.valid info.scheduler
  if ret < 0 then (.error (.UnsupportedScheduler info.scheduler), reg)
  else
    let print_flag :=
      if env.sched.has_weight ret then DOCKER_ERROR_PRINT else DOCKER_PRINT_NONE
    let wres := docker_info_int_value_set tmp "weight" info.weight print_flag
    let info := { info with weight := wres.2 }
    if print_flag = DOCKER_ERROR_PRINT ∧ wres.1 ≠ 0 then (.error .MissingWeight, reg)
    else
      let tres := docker_info_str_value_set tmp "trace_data_path"
        info.trace_data_path sz.trace_data_path DOCKER_ERROR_PRINT
      let info := { info with trace_data_path := tres.2 }
      if tres.1 ≠ 0 then (.error (.MissingField "trace_data_path"), reg)
      else
        let cres := docker_info_str_value_set tmp "cgroup_id"
          info.cgroup_id sz.cgroup_id DOCKER_ERROR_PRINT
        let info := { info with cgroup_id := cres.2 }
        if cres.1 ≠ 0 then (.error (.MissingField "cgroup_id"), reg)
        else
          match trace_source_check env.fs info.trace_data_path with
          | .error e => (.error e, reg)
          | .ok _ =>
            let info := { info with ppid := env.pid }
            if hsearch_find reg info.cgroup_id then
              (.error (.DuplicateCgroupId info.cgroup_id), reg)
            else
              (.ok info, hsearch_enter reg info.cgroup_id)

/-- `__docker_info_init` (`docker-info.c`, lines 127–237): per-task half of
resolution — locate `task_option[index]`, re-pull every field from it
(`task_soft_pull`), then run the validation tail (`task_checks`). -/
def __docker_info_init (env : Env) (sz : Sizes) (setting : Config) (index : Nat)
    (info : docker_info) (reg : Registry) : Except RError docker_info × Registry :=
  match setting.task_option with
  | none => (.error (.MissingField "task_option"), reg)
  | some arr =>
    match arr[index]? with
    | none => (.error (.IndexOutOfRange index), reg)
    | some tmp => task_checks env sz tmp (task_soft_pull sz tmp info) reg

/-- First key among accumulated `(key, return-code)` pairs whose pull
failed; `docker_info_init` ORs the return codes together (`ret |= ...`),
so the combined code is nonzero exactly when this is `some`. -/
def first_fail : List (String × Int) → Option String
  | [] => none
  | (k, r) :: t => if r ≠ 0 then some k else first_fail t

/-- The loud global-tier pull block of `docker_info_init` (`docker-info.c`,
lines 263–286): the seven mandatory global fields, their return codes ORed
together; returns the updated descriptor and the first missing key when the
combined code is nonzero. -/
def global_mandatory_pull (sz : Sizes) (fields : JObj) (info : docker_info) :
    docker_info × Option String :=
  let r1 := docker_info_int_value_set fields "time" info.time DOCKER_ERROR_PRINT
  let info := { info with time := r1.2 }
  let r2 := docker_info_int_value_set fields "q_depth" info.q_depth DOCKER_ERROR_PRINT
  let info := { info with q_depth := r2.2 }
  let r3 := docker_info_int_value_set fields "nr_thread" info.nr_thread DOCKER_ERROR_PRINT
  let info := { info with nr_thread := r3.2 }
  let r4 := docker_info_str_value_set fields "prefix_cgroup_name"
    info.prefix_cgroup_name sz.prefix_cgroup_name DOCKER_ERROR_PRINT
  let info := { info with prefix_cgroup_name := r4.2 }
  let r5 := docker_info_str_value_set fields "scheduler" info.scheduler
    sz.scheduler DOCKER_ERROR_PRINT
  let info := { info with scheduler := r5.2 }
  let r6 := docker_info_str_value_set fields "device" info.device
    sz.device DOCKER_ERROR_PRINT
  let info := { info with device := r6.2 }
  let r7 := docker_info_str_value_set fields "trace_replay_path"
    info.trace_replay_path sz.trace_replay_path DOCKER_ERROR_PRINT
  let info := { info with trace_replay_path := r7.2 }
  (info, first_fail [("time", r1.1), ("q_depth", r2.1), ("nr_thread", r3.1),
    ("prefix_cgroup_name", r4.1), ("scheduler", r5.1), ("device", r6.1),
    ("trace_replay_path", r7.1)])

/-- The silent global-tier pull block of `docker_info_init`
(`docker-info.c`, lines 311–325): soft fields whose absence is fine.  Note
line 313: the global `trace_repeat` key is stored into `&info->weight`. -/
def global_soft_pull (sz : Sizes) (fields : JObj) (info : docker_info) : docker_info :=
  let info := { info with weight :=
    (docker_info_int_value_set fields "weight" info.weight DOCKER_PRINT_NONE).2 }
  -- line 313: the "trace_repeat" key is stored into &info->weight
  let info := { info with weight :=
    (docker_info_int_value_set fields "trace_repeat" info.weight DOCKER_PRINT_NONE).2 }
  let info := { info with wss :=
    (docker_info_int_value_set fields "wss" info.wss DOCKER_PRINT_NONE).2 }
  let info := { info with utilization :=
    (docker_info_int_value_set fields "utilization" info.utilization DOCKER_PRINT_NONE).2 }
  let info := { info with iosize :=
    (docker_info_int_value_set fields "iosize" info.iosize DOCKER_PRINT_NONE).2 }
  { info with trace_data_path :=
    (docker_info_str_value_set fields "trace_data_path" info.trace_data_path
      sz.trace_data_path DOCKER_PRINT_NONE).2 }

/-- The executable-path resolution block of `docker_info_init`
(`docker-info.c`, lines 288–302): if the configured path does not exist,
rewrite it once to the well-known `/usr/bin` directory; the rewritten (or
original) path must then exist. -/
def exec_path_resolve (fs : String → Bool) (info : docker_info) :
    Except RError docker_info :=
  let info :=
    if fs info.trace_replay_path then info
    else { info with trace_replay_path := "/usr/bin/" ++ info.trace_replay_path }
  if ¬ fs info.trace_replay_path then .error (.ExecutableNotFound info.trace_replay_path)
  else .ok info

/-- The success tail of `docker_info_init` (`docker-info.c`, lines 327–343):
propagate a failure of the per-task half unchanged; on success set the three
synchronization-handle slots to the `-1` sentinel and the chain link to
empty. -/
def finish_handles : Except RError docker_info × Registry →
    Except RError docker_info × Registry
  | (.error e, reg') => (.error e, reg')
  | (.ok info', reg') =>
    (.ok { info' with mqid := -1, semid := -1, shmid := -1, next := none }, reg')

/-- `docker_info_init` (`docker-info.c`, lines 247–344): allocate a zeroed
descriptor with `trace_repeat = 1`, loudly pull the seven mandatory global
fields (`global_mandatory_pull`), resolve the executable path with the
`/usr/bin` fallback (`exec_path_resolve`), validate the scheduler, silently
pull the soft global fields (`global_soft_pull`), run the per-task half
(`__docker_info_init`), and on success set the three sync-handle slots to
the `-1` sentinel and the chain link to empty. -/
def docker_info_init (env : Env) (sz : Sizes) (setting : Config) (index : Nat)
    (reg : Registry) : Except RError docker_info × Registry :=
  let info := { docker_info.zero with trace_repeat := 1 }
  match global_mandatory_pull sz setting.fields info with
  | (_, some k) => (.error (.MissingField k), reg)
  | (info, none) =>
    match exec_path_resolve env.fs info with
    | .error e => (.error e, reg)
    | .ok info =>
      if env.sched.valid info.scheduler < 0 then
        (.error (.UnsupportedScheduler info.scheduler), reg)
      else
        let info := global_soft_pull sz setting.fields info
        finish_handles (__docker_info_init env sz setting index info reg)

/-- A string survives the `snprintf` copy and the quote strip unchanged:
no quote character in it and it fits the buffer. -/
@[reducible] def CleanStr (s : String) (size : Nat) : Prop :=
  ('\"' : Char) ∉ s.data ∧ s.data.length < size

/-- A global-settings object that supplies all seven mandatory global fields
with values that survive extraction unchanged. -/
@[reducible] def GlobalClean (sz : Sizes) (fields : JObj) (tm qd nt : Int)
    (pfx sch dev exe : String) : Prop :=
  jlookup fields "time" = some (.jint tm) ∧
  jlookup fields "q_depth" = some (.jint qd) ∧
  jlookup fields "nr_thread" = some (.jint nt) ∧
  jlookup fields "prefix_cgroup_name" = some (.jstr pfx) ∧
  CleanStr pfx sz.prefix_cgroup_name ∧
  jlookup fields "scheduler" = some (.jstr sch) ∧ CleanStr sch sz.scheduler ∧
  jlookup fields "device" = some (.jstr dev) ∧ CleanStr dev sz.device ∧
  jlookup fields "trace_replay_path" = some (.jstr exe) ∧
  CleanStr exe sz.trace_replay_path

/-- The descriptor state after the seven loud global pulls of
`docker_info_init` succeed on a `GlobalClean` configuration. -/
def seeded_info (tm qd nt : Int) (pfx sch dev exe : String) : docker_info :=
  { docker_info.zero with
    trace_repeat := 1
    time := uint32_of_int tm
    q_depth := uint32_of_int qd
    nr_thread := uint32_of_int nt
    prefix_cgroup_name := pfx
    scheduler := sch
    device := dev
    trace_replay_path := exe }

/-! ## Concrete instances used to exhibit behaviours -/

/-- A concrete scheduler policy: three supported kinds, of which only kind 2
(`"bfq"`) is weight-aware. -/
def schedW : SchedPolicy where
  valid := fun s =>
    if s = "none" then 0 else if s = "kyber" then 1 else if s = "bfq" then 2 else -1
  has_weight := fun k => k == 2

/-- A concrete filesystem: exactly three paths exist. -/
def fsW : String → Bool := fun p =>
  p == "trace-replay" || p == "/usr/bin/mytool" || p == "/tmp/trace.dat"

/-- A concrete resolution environment. -/
def envW : Env := { fs := fsW, pid := 77, sched := schedW }

/-- Concrete buffer capacities, ample for every string used here. -/
def szW : Sizes :=
  { prefix_cgroup_name := 64, scheduler := 64, trace_replay_path := 256,
    device := 64, trace_data_path := 256, cgroup_id := 64 }

/-- A global-settings object supplying all seven mandatory fields (the
scenario of the specification, with the non-weight-aware `"kyber"`). -/
def gfieldsW : JObj :=
  [("time", .jint 60), ("q_depth", .jint 32), ("nr_thread", .jint 4),
   ("prefix_cgroup_name", .jstr "bench_"), ("scheduler", .jstr "kyber"),
   ("device", .jstr "/dev/sdb"), ("trace_replay_path", .jstr "trace-replay")]

/-- A task entry supplying the two task-mandatory keys. -/
def taskW : JObj := [("trace_data_path", .jstr "seq_read"), ("cgroup_id", .jstr "t0")]

/-- A fully valid one-task configuration. -/
def cfgW : Config := { fields := gfieldsW, task_option := some [taskW] }

/-- A second task entry with a different trace source but the same
`cgroup_id` as `taskW`. -/
def taskW2 : JObj := [("trace_data_path", .jstr "seq_write"), ("cgroup_id", .jstr "t0")]

/-- Two task entries sharing one `cgroup_id`. -/
def tasksW : List JObj := [taskW, taskW2]

/-- The descriptor `cfgW` resolves to. -/
def dW : docker_info :=
  { time := 60, q_depth := 32, nr_thread := 4, weight := 0, trace_repeat := 1,
    wss := 0, utilization := 0, iosize := 0, prefix_cgroup_name := "bench_",
    scheduler := "kyber", trace_replay_path := "trace-replay",
    device := "/dev/sdb", trace_data_path := "seq_read", cgroup_id := "t0",
    ppid := 77, mqid := -1, semid := -1, shmid := -1, next := none }

/-- Like `cfgW`, but the weight-aware `"bfq"` scheduler is selected and
`weight` is supplied at the global tier only. -/
def cfgC2 : Config :=
  { fields :=
      [("time", .jint 60), ("q_depth", .jint 32), ("nr_thread", .jint 4),
       ("prefix_cgroup_name", .jstr "bench_"), ("scheduler", .jstr "bfq"),
       ("device", .jstr "/dev/sdb"), ("trace_replay_path", .jstr "trace-replay"),
       ("weight", .jint 100)],
    task_option := some [taskW] }

/-- Like `cfgW`, but the task entry also supplies `trace_repeat = 5`. -/
def cfgC3 : Config :=
  { fields := gfieldsW,
    task_option := some [[("trace_data_path", .jstr "seq_read"),
      ("cgroup_id", .jstr "t0"), ("trace_repeat", .jint 5)]] }

/-- The descriptor `cfgC3` resolves to: `trace_repeat` stays at its default 1
while the configured `trace_repeat = 5` lands in `weight`. -/
def dC3 : docker_info :=
  { time := 60, q_depth := 32, nr_thread := 4, weight := 5, trace_repeat := 1,
    wss := 0, utilization := 0, iosize := 0, prefix_cgroup_name := "bench_",
    scheduler := "kyber", trace_replay_path := "trace-replay",
    device := "/dev/sdb", trace_data_path := "seq_read", cgroup_id := "t0",
    ppid := 77, mqid := -1, semid := -1, shmid := -1, next := none }

/-- Like `cfgW`, but the global tier supplies `trace_data_path` while the
task entry omits it. -/
def cfgC7a : Config :=
  { fields := gfieldsW ++ [("trace_data_path", .jstr "seq_read")],
    task_option := some [[("cgroup_id", .jstr "t0")]] }

/-- Like `cfgW`, but the global tier supplies `cgroup_id` while the task
entry omits it. -/
def cfgC7b : Config :=
  { fields := gfieldsW ++ [("cgroup_id", .jstr "g0")],
    task_option := some [[("trace_data_path", .jstr "seq_read")]] }

/-- A configuration whose global-settings object is empty: every mandatory
global field is missing. -/
def cfgBad : Config := { fields := [], task_option := some [] }

/-- The seven keys whose loud pulls make up `global_mandatory_pull`. -/
def mandatory_global_keys : List String :=
  ["time", "q_depth", "nr_thread", "prefix_cgroup_name", "scheduler",
   "device", "trace_replay_path"]

/-! ## Field-resolver evaluation lemmas -/

theorem generic_strip_string_eq_self {s : String} {c : Char} (h : c ∉ s.data) :
    generic_strip_string s c = s := by
  have h1 : s.data.head? ≠ some c := by
    intro hx
    exact h (List.mem_of_mem_head? (by simp [hx]))
  have h2 : s.data.getLast? ≠ some c := by
    intro hx
    rw [List.getLast?_eq_head?_reverse] at hx
    have h3 : c ∈ s.data.reverse := List.mem_of_mem_head? (by simp [hx])
    exact h (by simpa using h3)
  simp only [generic_strip_string]
  rw [if_neg h1, if_neg h2]

theorem snprintf_str_eq_self {size : Nat} {src : String} (dst : String)
    (h : src.data.length < size) : snprintf_str size dst src = src := by
  unfold snprintf_str
  rw [if_neg (by omega)]
  rw [List.take_of_length_le (by omega)]

theorem int_value_set_found {o : JObj} {k : String} {n : Int}
    (h : jlookup o k = some (.jint n)) (cur ip : Nat) :
    docker_info_int_value_set o k cur ip = (0, uint32_of_int n) := by
  unfold docker_info_int_value_set
  rw [h]
  rfl

theorem int_value_set_missing {o : JObj} {k : String}
    (h : jlookup o k = none) (cur ip : Nat) :
    docker_info_int_value_set o k cur ip = (-22, cur) := by
  unfold docker_info_int_value_set
  rw [h]

theorem str_value_set_found {o : JObj} {k : String} {s : String} {size : Nat}
    (h : jlookup o k = some (.jstr s)) (hc : CleanStr s size) (m : String) (ip : Nat) :
    docker_info_str_value_set o k m size ip = (0, s) := by
  unfold docker_info_str_value_set
  rw [h]
  simp only [json_object_get_string]
  rw [snprintf_str_eq_self m hc.2, generic_strip_string_eq_self hc.1]

theorem str_value_set_missing {o : JObj} {k : String}
    (h : jlookup o k = none) (m : String) (size ip : Nat) :
    docker_info_str_value_set o k m size ip = (-22, m) := by
  unfold docker_info_str_value_set
  rw [h]

theorem int_value_set_fst_ne_zero (o : JObj) (k : String) (cur ip : Nat) :
    (docker_info_int_value_set o k cur ip).1 ≠ 0 ↔ jlookup o k = none := by
  unfold docker_info_int_value_set
  cases h : jlookup o k <;> simp

theorem str_value_set_fst_ne_zero (o : JObj) (k m : String) (size ip : Nat) :
    (docker_info_str_value_set o k m size ip).1 ≠ 0 ↔ jlookup o k = none := by
  unfold docker_info_str_value_set
  cases h : jlookup o k <;> simp

/-! ## Stage-evaluation lemmas -/

theorem first_fail_of_mem : ∀ (l : List (String × Int)),
    (∃ p ∈ l, p.2 ≠ 0) → ∃ k, first_fail l = some k := by
  intro l
  induction l with
  | nil => intro h; simp at h
  | cons p t ih =>
    intro h
    obtain ⟨k, r⟩ := p
    by_cases hr : r ≠ 0
    · exact ⟨k, by simp [first_fail, hr]⟩
    · push_neg at hr
      obtain ⟨q, hq, hq2⟩ := h
      rcases List.mem_cons.mp hq with hqe | hqt
      · subst hqe; simp [hr] at hq2
      · obtain ⟨k', hk'⟩ := ih ⟨q, hqt, hq2⟩
        exact ⟨k', by simp [first_fail, hr, hk']⟩

theorem first_fail_mem : ∀ {l : List (String × Int)} {k : String},
    first_fail l = some k → ∃ r, (k, r) ∈ l ∧ r ≠ 0 := by
  intro l
  induction l with
  | nil => intro k h; simp [first_fail] at h
  | cons p t ih =>
    intro k h
    obtain ⟨k', r'⟩ := p
    by_cases hr : r' ≠ 0
    · simp [first_fail, hr] at h
      exact ⟨r', by simp [h], hr⟩
    · push_neg at hr
      simp [first_fail, hr] at h
      obtain ⟨r, hm, hne⟩ := ih h
      exact ⟨r, by simp [hm], hne⟩

theorem global_mandatory_pull_clean {sz : Sizes} {fields : JObj}
    {tm qd nt : Int} {pfx sch dev exe : String}
    (hg : GlobalClean sz fields tm qd nt pfx sch dev exe) :
    global_mandatory_pull sz fields { docker_info.zero with trace_repeat := 1 } =
      (seeded_info tm qd nt pfx sch dev exe, none) := by
  obtain ⟨h1, h2, h3, h4, h4c, h5, h5c, h6, h6c, h7, h7c⟩ := hg
  simp only [global_mandatory_pull,
    int_value_set_found h1, int_value_set_found h2, int_value_set_found h3,
    str_value_set_found h4 h4c, str_value_set_found h5 h5c,
    str_value_set_found h6 h6c, str_value_set_found h7 h7c]
  rfl

theorem global_mandatory_pull_snd_fail (sz : Sizes) {fields : JObj}
    (info : docker_info)
    (h : ∃ k ∈ mandatory_global_keys, jlookup fields k = none) :
    ∃ k, (global_mandatory_pull sz fields info).2 = some k ∧
      jlookup fields k = none ∧ k ∈ mandatory_global_keys := by
  obtain ⟨k0, hk0m, hk0⟩ := h
  simp only [global_mandatory_pull]
  rcases hl1 : jlookup fields "time" with _ | v1
  · exact ⟨"time", by simp [first_fail, int_value_set_missing hl1], hl1,
      by simp [mandatory_global_keys]⟩
  · have hr1 : ∀ cur ip, (docker_info_int_value_set fields "time" cur ip).1 = 0 := by
      intro cur ip; simp [docker_info_int_value_set, hl1]
    rcases hl2 : jlookup fields "q_depth" with _ | v2
    · exact ⟨"q_depth", by simp [first_fail, hr1, int_value_set_missing hl2], hl2,
        by simp [mandatory_global_keys]⟩
    · have hr2 : ∀ cur ip, (docker_info_int_value_set fields "q_depth" cur ip).1 = 0 := by
        intro cur ip; simp [docker_info_int_value_set, hl2]
      rcases hl3 : jlookup fields "nr_thread" with _ | v3
      · exact ⟨"nr_thread",
          by simp [first_fail, hr1, hr2, int_value_set_missing hl3], hl3,
          by simp [mandatory_global_keys]⟩
      · have hr3 : ∀ cur ip, (docker_info_int_value_set fields "nr_thread" cur ip).1 = 0 := by
          intro cur ip; simp [docker_info_int_value_set, hl3]
        rcases hl4 : jlookup fields "prefix_cgroup_name" with _ | v4
        · exact ⟨"prefix_cgroup_name",
            by simp [first_fail, hr1, hr2, hr3, str_value_set_missing hl4], hl4,
            by simp [mandatory_global_keys]⟩
        · have hr4 : ∀ m msz ip,
              (docker_info_str_value_set fields "prefix_cgroup_name" m msz ip).1 = 0 := by
            intro m msz ip; simp [docker_info_str_value_set, hl4]
          rcases hl5 : jlookup fields "scheduler" with _ | v5
          · exact ⟨"scheduler",
              by simp [first_fail, hr1, hr2, hr3, hr4, str_value_set_missing hl5], hl5,
              by simp [mandatory_global_keys]⟩
          · have hr5 : ∀ m msz ip,
                (docker_info_str_value_set fields "scheduler" m msz ip).1 = 0 := by
              intro m msz ip; simp [docker_info_str_value_set, hl5]
            rcases hl6 : jlookup fields "device" with _ | v6
            · exact ⟨"device",
                by simp [first_fail, hr1, hr2, hr3, hr4, hr5,
                  str_value_set_missing hl6], hl6,
                by simp [mandatory_global_keys]⟩
            · have hr6 : ∀ m msz ip,
                  (docker_info_str_value_set fields "device" m msz ip).1 = 0 := by
                intro m msz ip; simp [docker_info_str_value_set, hl6]
              rcases hl7 : jlookup fields "trace_replay_path" with _ | v7
              · exact ⟨"trace_replay_path",
                  by simp [first_fail, hr1, hr2, hr3, hr4, hr5, hr6,
                    str_value_set_missing hl7], hl7,
                  by simp [mandatory_global_keys]⟩
              · exfalso
                simp only [mandatory_global_keys, List.mem_cons,
                  List.mem_singleton, List.not_mem_nil] at hk0m
                rcases hk0m with rfl | rfl | rfl | rfl | rfl | rfl | rfl | h0
                · rw [hl1] at hk0; exact Option.noConfusion hk0
                · rw [hl2] at hk0; exact Option.noConfusion hk0
                · rw [hl3] at hk0; exact Option.noConfusion hk0
                · rw [hl4] at hk0; exact Option.noConfusion hk0
                · rw [hl5] at hk0; exact Option.noConfusion hk0
                · rw [hl6] at hk0; exact Option.noConfusion hk0
                · rw [hl7] at hk0; exact Option.noConfusion hk0
                · exact h0

theorem exec_path_resolve_direct {fs : String → Bool} {info : docker_info}
    (h : fs info.trace_replay_path = true) :
    exec_path_resolve fs info = .ok info := by
  simp [exec_path_resolve, h]

theorem exec_path_resolve_fallback {fs : String → Bool} {info : docker_info}
    (h1 : fs info.trace_replay_path = false)
    (h2 : fs ("/usr/bin/" ++ info.trace_replay_path) = true) :
    exec_path_resolve fs info =
      .ok { info with trace_replay_path := "/usr/bin/" ++ info.trace_replay_path } := by
  simp [exec_path_resolve, h1, h2]

theorem exec_path_resolve_fail {fs : String → Bool} {info : docker_info}
    (h1 : fs info.trace_replay_path = false)
    (h2 : fs ("/usr/bin/" ++ info.trace_replay_path) = false) :
    exec_path_resolve fs info =
      .error (.ExecutableNotFound ("/usr/bin/" ++ info.trace_replay_path)) := by
  simp [exec_path_resolve, h1, h2]

theorem docker_info_init_eval {env : Env} {sz : Sizes} {setting : Config}
    {i : Nat} {reg : Registry} {tm qd nt : Int} {pfx sch dev exe : String}
    {info1 : docker_info}
    (hg : GlobalClean sz setting.fields tm qd nt pfx sch dev exe)
    (hex : exec_path_resolve env.fs (seeded_info tm qd nt pfx sch dev exe) = .ok info1)
    (hv : ¬ env.sched.valid info1.scheduler < 0) :
    docker_info_init env sz setting i reg =
      finish_handles (__docker_info_init env sz setting i
        (global_soft_pull sz setting.fields info1) reg) := by
  simp only [docker_info_init, global_mandatory_pull_clean hg, hex, if_neg hv]

theorem docker_info_init_exec_fail {env : Env} {sz : Sizes} {setting : Config}
    {i : Nat} {reg : Registry} {tm qd nt : Int} {pfx sch dev exe : String}
    {e : RError}
    (hg : GlobalClean sz setting.fields tm qd nt pfx sch dev exe)
    (hex : exec_path_resolve env.fs (seeded_info tm qd nt pfx sch dev exe) = .error e) :
    docker_info_init env sz setting i reg = (.error e, reg) := by
  simp only [docker_info_init, global_mandatory_pull_clean hg, hex]

theorem __docker_info_init_at {env : Env} {sz : Sizes} {setting : Config}
    {i : Nat} {tasks : List JObj} {te : JObj} {info : docker_info} {reg : Registry}
    (ht : setting.task_option = some tasks) (hi : tasks[i]? = some te) :
    __docker_info_init env sz setting i info reg =
      task_checks env sz te (task_soft_pull sz te info) reg := by
  simp only [__docker_info_init, ht, hi]

theorem task_soft_pull_tc (sz : Sizes) (info : docker_info) (v1 v2 : JValue) :
    task_soft_pull sz [("trace_data_path", v1), ("cgroup_id", v2)] info = info := by
  simp [task_soft_pull, docker_info_int_value_set, docker_info_str_value_set, jlookup]

theorem task_soft_pull_cg (sz : Sizes) (info : docker_info) (v : JValue) :
    task_soft_pull sz [("cgroup_id", v)] info = info := by
  simp [task_soft_pull, docker_info_int_value_set, docker_info_str_value_set, jlookup]

theorem task_soft_pull_td (sz : Sizes) (info : docker_info) (v : JValue) :
    task_soft_pull sz [("trace_data_path", v)] info = info := by
  simp [task_soft_pull, docker_info_int_value_set, docker_info_str_value_set, jlookup]

theorem task_soft_pull_tcw (sz : Sizes) (info : docker_info) (v1 v2 : JValue) (w : Int) :
    task_soft_pull sz [("trace_data_path", v1), ("cgroup_id", v2), ("weight", .jint w)]
      info = { info with weight := uint32_of_int w } := by
  simp [task_soft_pull, docker_info_int_value_set, docker_info_str_value_set, jlookup,
    json_object_get_int]

theorem task_soft_pull_tcr (sz : Sizes) (info : docker_info) (v1 v2 : JValue) (rep : Int) :
    task_soft_pull sz
      [("trace_data_path", v1), ("cgroup_id", v2), ("trace_repeat", .jint rep)] info =
      { info with weight := uint32_of_int rep } := by
  simp [task_soft_pull, docker_info_int_value_set, docker_info_str_value_set, jlookup,
    json_object_get_int]

theorem task_checks_unsupported {env : Env} {sz : Sizes} {te : JObj}
    {info : docker_info} {reg : Registry}
    (hv : env.sched.valid info.scheduler < 0) :
    task_checks env sz te info reg = (.error (.UnsupportedScheduler info.scheduler), reg) := by
  simp only [task_checks, if_pos hv]

theorem task_checks_missing_weight {env : Env} {sz : Sizes} {te : JObj}
    {info : docker_info} {reg : Registry}
    (hv : ¬ env.sched.valid info.scheduler < 0)
    (hwt : env.sched.has_weight (env.sched.valid info.scheduler) = true)
    (hwn : jlookup te "weight" = none) :
    task_checks env sz te info reg = (.error .MissingWeight, reg) := by
  simp only [task_checks, if_neg hv, hwt, if_true, int_value_set_missing hwn]
  simp [DOCKER_ERROR_PRINT]

theorem task_checks_missing_trace {env : Env} {sz : Sizes} {te : JObj}
    {info : docker_info} {reg : Registry}
    (hv : ¬ env.sched.valid info.scheduler < 0)
    (hwf : env.sched.has_weight (env.sched.valid info.scheduler) = false)
    (htn : jlookup te "trace_data_path" = none) :
    task_checks env sz te info reg = (.error (.MissingField "trace_data_path"), reg) := by
  simp only [task_checks, if_neg hv, hwf, str_value_set_missing htn]
  simp [DOCKER_ERROR_PRINT, DOCKER_PRINT_NONE]

theorem task_checks_missing_cgroup {env : Env} {sz : Sizes} {te : JObj}
    {info : docker_info} {reg : Registry} {t : String}
    (hv : ¬ env.sched.valid info.scheduler < 0)
    (hwf : env.sched.has_weight (env.sched.valid info.scheduler) = false)
    (ht : jlookup te "trace_data_path" = some (.jstr t))
    (hct : CleanStr t sz.trace_data_path)
    (hcn : jlookup te "cgroup_id" = none) :
    task_checks env sz te info reg = (.error (.MissingField "cgroup_id"), reg) := by
  simp only [task_checks, if_neg hv, hwf, str_value_set_found ht hct,
    str_value_set_missing hcn]
  simp [DOCKER_ERROR_PRINT, DOCKER_PRINT_NONE]

theorem task_checks_trace_err {env : Env} {sz : Sizes} {te : JObj}
    {info : docker_info} {reg : Registry} {t c : String} {e : RError}
    (hv : ¬ env.sched.valid info.scheduler < 0)
    (hwf : env.sched.has_weight (env.sched.valid info.scheduler) = false)
    (ht : jlookup te "trace_data_path" = some (.jstr t))
    (hct : CleanStr t sz.trace_data_path)
    (hc : jlookup te "cgroup_id" = some (.jstr c))
    (hcc : CleanStr c sz.cgroup_id)
    (hterr : trace_source_check env.fs t = .error e) :
    task_checks env sz te info reg = (.error e, reg) := by
  simp only [task_checks, if_neg hv, hwf, str_value_set_found ht hct,
    str_value_set_found hc hcc]
  simp [DOCKER_ERROR_PRINT, DOCKER_PRINT_NONE, hterr]

theorem task_checks_dup {env : Env} {sz : Sizes} {te : JObj}
    {info : docker_info} {reg : Registry} {t c : String}
    (hv : ¬ env.sched.valid info.scheduler < 0)
    (hwf : env.sched.has_weight (env.sched.valid info.scheduler) = false)
    (ht : jlookup te "trace_data_path" = some (.jstr t))
    (hct : CleanStr t sz.trace_data_path)
    (hc : jlookup te "cgroup_id" = some (.jstr c))
    (hcc : CleanStr c sz.cgroup_id)
    (hts : trace_source_check env.fs t = .ok ())
    (hdup : c ∈ reg) :
    task_checks env sz te info reg = (.error (.DuplicateCgroupId c), reg) := by
  simp only [task_checks, if_neg hv, hwf, str_value_set_found ht hct,
    str_value_set_found hc hcc]
  simp [DOCKER_ERROR_PRINT, DOCKER_PRINT_NONE, hts, hsearch_find, hdup]

theorem task_checks_pass_noweight {env : Env} {sz : Sizes} {te : JObj}
    {info : docker_info} {reg : Registry} {t c : String}
    (hv : ¬ env.sched.valid info.scheduler < 0)
    (hwf : env.sched.has_weight (env.sched.valid info.scheduler) = false)
    (hwn : jlookup te "weight" = none)
    (ht : jlookup te "trace_data_path" = some (.jstr t))
    (hct : CleanStr t sz.trace_data_path)
    (hc : jlookup te "cgroup_id" = some (.jstr c))
    (hcc : CleanStr c sz.cgroup_id)
    (hts : trace_source_check env.fs t = .ok ())
    (hdup : c ∉ reg) :
    task_checks env sz te info reg =
      (.ok { info with trace_data_path := t, cgroup_id := c, ppid := env.pid },
        c :: reg) := by
  simp only [task_checks, if_neg hv, hwf, int_value_set_missing hwn,
    str_value_set_found ht hct, str_value_set_found hc hcc]
  simp [DOCKER_ERROR_PRINT, DOCKER_PRINT_NONE, hts, hsearch_find, hdup, hsearch_enter]

theorem task_checks_pass_weight {env : Env} {sz : Sizes} {te : JObj}
    {info : docker_info} {reg : Registry} {t c : String}
    (hv : ¬ env.sched.valid info.scheduler < 0) (w : Int)
    (hw : jlookup te "weight" = some (.jint w))
    (ht : jlookup te "trace_data_path" = some (.jstr t))
    (hct : CleanStr t sz.trace_data_path)
    (hc : jlookup te "cgroup_id" = some (.jstr c))
    (hcc : CleanStr c sz.cgroup_id)
    (hts : trace_source_check env.fs t = .ok ())
    (hdup : c ∉ reg) :
    task_checks env sz te info reg =
      (.ok { info with weight := uint32_of_int w, trace_data_path := t, cgroup_id := c, ppid := env.pid },
        c :: reg) := by
  simp only [task_checks, if_neg hv, int_value_set_found hw,
    str_value_set_found ht hct, str_value_set_found hc hcc]
  simp [DOCKER_ERROR_PRINT, DOCKER_PRINT_NONE, hts, hsearch_find, hdup, hsearch_enter]

theorem task_checks_cases (env : Env) (sz : Sizes) (te : JObj)
    (info : docker_info) (reg : Registry) :
    (∃ e, task_checks env sz te info reg = (.error e, reg)) ∨
    (∃ d, task_checks env sz te info reg = (.ok d, d.cgroup_id :: reg)) := by
  simp only [task_checks]
  repeat' first
    | exact Or.inl ⟨_, rfl⟩
    | exact Or.inr ⟨_, rfl⟩
    | split

theorem __docker_info_init_cases (env : Env) (sz : Sizes) (setting : Config)
    (i : Nat) (info : docker_info) (reg : Registry) :
    (∃ e, __docker_info_init env sz setting i info reg = (.error e, reg)) ∨
    (∃ d, __docker_info_init env sz setting i info reg = (.ok d, d.cgroup_id :: reg)) := by
  simp only [__docker_info_init]
  split
  · exact Or.inl ⟨_, rfl⟩
  · split
    · exact Or.inl ⟨_, rfl⟩
    · exact task_checks_cases _ _ _ _ _

theorem docker_info_init_cases (env : Env) (sz : Sizes) (setting : Config)
    (i : Nat) (reg : Registry) :
    (∃ e, docker_info_init env sz setting i reg = (.error e, reg)) ∨
    (∃ d, docker_info_init env sz setting i reg = (.ok d, d.cgroup_id :: reg) ∧
      d.mqid = -1 ∧ d.semid = -1 ∧ d.shmid = -1 ∧ d.next = none) := by
  simp only [docker_info_init]
  split
  · exact Or.inl ⟨_, rfl⟩
  · split
    · exact Or.inl ⟨_, rfl⟩
    · split
      · exact Or.inl ⟨_, rfl⟩
      · rcases __docker_info_init_cases env sz setting i
            (global_soft_pull sz setting.fields _) reg with ⟨e, he⟩ | ⟨d, hd⟩
        · rw [he]
          exact Or.inl ⟨e, rfl⟩
        · rw [hd]
          exact Or.inr ⟨_, rfl, rfl, rfl, rfl, rfl⟩

/-! ## Claim theorems -/

/-- C5: the Trace Source Classifier returns `Synthetic` exactly on a
case-sensitive exact match of one of the six tags `rand_read`, `rand_write`,
`rand_mixed`, `seq_read`, `seq_write`, `seq_mixed`, and `FileBased`
(`DOCKER_NOT_SYNTH`) for every other string; for a synthetic source the
resolver's trace-source step consults the filesystem not at all and passes. -/
theorem C5_trace_source_classifier (s : String) (f g : String → Bool) :
    (docker_is_synth_type s = DOCKER_SYNTH ↔
      (s = "rand_read" ∨ s = "rand_write" ∨ s = "rand_mixed" ∨
       s = "seq_read" ∨ s = "seq_write" ∨ s = "seq_mixed")) ∧
    (docker_is_synth_type s ≠ DOCKER_SYNTH →
      docker_is_synth_type s = DOCKER_NOT_SYNTH) ∧
    (docker_is_synth_type s = DOCKER_SYNTH →
      trace_source_check f s = trace_source_check g s ∧
      trace_source_check f s = .ok ()) := by
  refine ⟨?_, ?_, ?_⟩
  · by_cases h : s ∈ global_synth_type
    · simp only [docker_is_synth_type, if_pos h, DOCKER_SYNTH]
      simpa [global_synth_type] using h
    · simp only [docker_is_synth_type, if_neg h, DOCKER_SYNTH, DOCKER_NOT_SYNTH]
      constructor
      · intro h0; exact absurd h0 (by decide)
      · intro hd; exact absurd (by simpa [global_synth_type] using hd) h
  · intro hne
    by_cases h : s ∈ global_synth_type
    · exact absurd (by simp [docker_is_synth_type, if_pos h]) hne
    · simp [docker_is_synth_type, if_neg h]
  · intro h
    refine ⟨?_, ?_⟩
    · simp [trace_source_check, h]
    · simp [trace_source_check, h]

theorem C5_witness :
    trace_source_check (fun _ => true) "seq_read" =
      trace_source_check (fun _ => false) "seq_read" ∧
    trace_source_check (fun _ => true) "seq_read" = .ok () :=
  (C5_trace_source_classifier "seq_read" (fun _ => true) (fun _ => false)).2.2
    (by decide)

/-- C9: every descriptor returned successfully by resolution has all three
synchronization-handle slots (`mqid`, `semid`, `shmid`) at the unallocated
`-1` sentinel and an empty chain link; resolution only ever writes the
sentinel into these slots, never an allocated handle. -/
theorem C9_sync_handles_sentinel (env : Env) (sz : Sizes) (setting : Config)
    (i : Nat) (reg reg' : Registry) (d : docker_info)
    (h : docker_info_init env sz setting i reg = (.ok d, reg')) :
    d.mqid = -1 ∧ d.semid = -1 ∧ d.shmid = -1 ∧ d.next = none := by
  rcases docker_info_init_cases env sz setting i reg with
    ⟨e, he⟩ | ⟨d', hd', hm, hs, hh, hn⟩
  · rw [he] at h
    exact absurd (congrArg Prod.fst h) (by simp)
  · rw [hd'] at h
    have hde : d' = d := by simpa using congrArg Prod.fst h
    subst hde
    exact ⟨hm, hs, hh, hn⟩

theorem C9_witness :
    dW.mqid = -1 ∧ dW.semid = -1 ∧ dW.shmid = -1 ∧ dW.next = none :=
  C9_sync_handles_sentinel envW szW cfgW 0 [] ["t0"] dW (by rfl)

/-- C10: the Cgroup Identity Registry gains a task's `cgroup_id` exactly when
that task's resolution returns a descriptor: every failing resolution leaves
the registry unchanged (and returns no descriptor — the C code frees the
partial one), and every successful resolution extends it with exactly the
returned descriptor's `cgroup_id`. -/
theorem C10_registry_exactly_on_success (env : Env) (sz : Sizes)
    (setting : Config) (i : Nat) (reg : Registry) :
    ((∃ e, (docker_info_init env sz setting i reg).1 = .error e) →
      (docker_info_init env sz setting i reg).2 = reg) ∧
    (∀ d, (docker_info_init env sz setting i reg).1 = .ok d →
      (docker_info_init env sz setting i reg).2 = hsearch_enter reg d.cgroup_id) := by
  rcases docker_info_init_cases env sz setting i reg with
    ⟨e, he⟩ | ⟨d', hd', _, _, _, _⟩
  · refine ⟨fun _ => by rw [he], fun d hd => ?_⟩
    rw [he] at hd
    simp at hd
  · refine ⟨fun hee => ?_, fun d hd => ?_⟩
    · obtain ⟨e, hee⟩ := hee
      rw [hd'] at hee
      simp at hee
    · rw [hd'] at hd ⊢
      simp at hd
      subst hd
      rfl

theorem C10_witness :
    (docker_info_init envW szW cfgBad 0 []).2 = [] ∧
    (docker_info_init envW szW cfgW 0 []).2 = hsearch_enter [] dW.cgroup_id :=
  ⟨(C10_registry_exactly_on_success envW szW cfgBad 0 []).1
      ⟨.MissingField "time", by rfl⟩,
   (C10_registry_exactly_on_success envW szW cfgW 0 []).2 dW (by rfl)⟩

/-- C8: a global-settings object missing at least one of the seven mandatory
global fields makes resolution fail with `MissingField` (naming a missing
mandatory key) and return no descriptor, whatever the task array holds. -/
theorem C8_missing_mandatory_global (env : Env) (sz : Sizes) (fields : JObj)
    (topt : Option (List JObj)) (i : Nat) (reg : Registry)
    (h : ∃ k ∈ mandatory_global_keys, jlookup fields k = none) :
    ∃ k, jlookup fields k = none ∧ k ∈ mandatory_global_keys ∧
      docker_info_init env sz ⟨fields, topt⟩ i reg = (.error (.MissingField k), reg) := by
  obtain ⟨k, hsnd, hnone, hmem⟩ :=
    global_mandatory_pull_snd_fail sz { docker_info.zero with trace_repeat := 1 } h
  refine ⟨k, hnone, hmem, ?_⟩
  rcases hgp : global_mandatory_pull sz fields
      { docker_info.zero with trace_repeat := 1 } with ⟨info1, r⟩
  rw [hgp] at hsnd
  simp only at hsnd
  subst hsnd
  simp only [docker_info_init, hgp]

theorem C8_witness :
    ∃ k, jlookup cfgBad.fields k = none ∧ k ∈ mandatory_global_keys ∧
      docker_info_init envW szW ⟨cfgBad.fields, cfgBad.task_option⟩ 0 [] =
        (.error (.MissingField k), []) :=
  C8_missing_mandatory_global envW szW cfgBad.fields cfgBad.task_option 0 []
    ⟨"time", by decide, by rfl⟩

/-- C3 (code evaluated at the failing input): with `trace_repeat = 5`
supplied in the task entry, resolution succeeds but the configured value
lands in `weight` while `trace_repeat` stays at its default 1 — the source
reads the `trace_repeat` key into `&info->weight` (lines 160 and 313). -/
theorem C3_trace_repeat_aliased_into_weight :
    docker_info_init envW szW cfgC3 0 [] = (.ok dC3, ["t0"]) ∧
    dC3.trace_repeat = 1 ∧ dC3.weight = 5 := by
  refine ⟨by rfl, by rfl, by rfl⟩

/-- C2 counterexample: a configuration whose effective scheduler (`"bfq"`)
is weight-aware and which supplies `weight = 100` at the global tier (but
not in the task entry) still fails with `MissingWeight` — supplying weight
at the global tier does not pass the weight check. -/
theorem C2_counterexample :
    jlookup cfgC2.fields "weight" = some (.jint 100) ∧
    envW.sched.has_weight (envW.sched.valid "bfq") = true ∧
    docker_info_init envW szW cfgC2 0 [] = (.error .MissingWeight, []) := by
  refine ⟨by rfl, by rfl, by rfl⟩

/-- C7 counterexample: the global tier supplies `trace_data_path`
(respectively `cgroup_id`), the task entry omits that key, and resolution
nonetheless fails with `MissingField` for exactly that key — the global
value is not inherited as a substitute for the task-tier requirement. -/
theorem C7_counterexample :
    jlookup cfgC7a.fields "trace_data_path" = some (.jstr "seq_read") ∧
    docker_info_init envW szW cfgC7a 0 [] =
      (.error (.MissingField "trace_data_path"), []) ∧
    jlookup cfgC7b.fields "cgroup_id" = some (.jstr "g0") ∧
    docker_info_init envW szW cfgC7b 0 [] =
      (.error (.MissingField "cgroup_id"), []) := by
  refine ⟨by rfl, by rfl, by rfl, by rfl⟩

theorem global_soft_pull_scheduler (sz : Sizes) (fields : JObj) (info : docker_info) :
    (global_soft_pull sz fields info).scheduler = info.scheduler := rfl

/-- C1: in one run (one registry), two task entries with equal `cgroup_id`
cannot both resolve: the first succeeds and registers the id, and the second
then fails with `DuplicateCgroupId`; with the registry reset (a fresh run)
the second entry resolves successfully. -/
theorem C1_duplicate_cgroup_id (env : Env) (sz : Sizes) (fields : JObj)
    (tasks : List JObj) (i j : Nat) (tm qd nt : Int)
    (pfx sch dev exe t1 t2 c : String)
    (hg : GlobalClean sz fields tm qd nt pfx sch dev exe)
    (hexe : env.fs exe = true)
    (hv : ¬ env.sched.valid sch < 0)
    (hwf : env.sched.has_weight (env.sched.valid sch) = false)
    (hi : tasks[i]? = some [("trace_data_path", .jstr t1), ("cgroup_id", .jstr c)])
    (hj : tasks[j]? = some [("trace_data_path", .jstr t2), ("cgroup_id", .jstr c)])
    (hct1 : CleanStr t1 sz.trace_data_path)
    (hct2 : CleanStr t2 sz.trace_data_path)
    (hcc : CleanStr c sz.cgroup_id)
    (hts1 : trace_source_check env.fs t1 = .ok ())
    (hts2 : trace_source_check env.fs t2 = .ok ()) :
    ∃ d1, docker_info_init env sz ⟨fields, some tasks⟩ i [] = (.ok d1, [c]) ∧
      d1.cgroup_id = c ∧
      (docker_info_init env sz ⟨fields, some tasks⟩ j [c]).1 =
        .error (.DuplicateCgroupId c) ∧
      ∃ d2, (docker_info_init env sz ⟨fields, some tasks⟩ j []).1 = .ok d2 := by
  have h1 : docker_info_init env sz ⟨fields, some tasks⟩ i [] =
      (.ok { global_soft_pull sz fields (seeded_info tm qd nt pfx sch dev exe) with trace_data_path := t1, cgroup_id := c, ppid := env.pid, mqid := -1, semid := -1, shmid := -1, next := none }, [c]) := by
    rw [docker_info_init_eval hg (exec_path_resolve_direct hexe) hv,
      __docker_info_init_at rfl hi, task_soft_pull_tc,
      task_checks_pass_noweight hv hwf (by simp [jlookup]) (by simp [jlookup]) hct1
        (by simp [jlookup]) hcc hts1 (by simp)]
    rfl
  have h3 : docker_info_init env sz ⟨fields, some tasks⟩ j [] =
      (.ok { global_soft_pull sz fields (seeded_info tm qd nt pfx sch dev exe) with trace_data_path := t2, cgroup_id := c, ppid := env.pid, mqid := -1, semid := -1, shmid := -1, next := none }, [c]) := by
    rw [docker_info_init_eval hg (exec_path_resolve_direct hexe) hv,
      __docker_info_init_at rfl hj, task_soft_pull_tc,
      task_checks_pass_noweight hv hwf (by simp [jlookup]) (by simp [jlookup]) hct2
        (by simp [jlookup]) hcc hts2 (by simp)]
    rfl
  refine ⟨_, h1, rfl, ?_, ⟨_, congrArg Prod.fst h3⟩⟩
  rw [docker_info_init_eval hg (exec_path_resolve_direct hexe) hv,
    __docker_info_init_at rfl hj, task_soft_pull_tc,
    task_checks_dup hv hwf (by simp [jlookup]) hct2 (by simp [jlookup]) hcc hts2
      (by simp)]
  rfl

theorem C1_witness :
    ∃ d1, docker_info_init envW szW ⟨gfieldsW, some tasksW⟩ 0 [] = (.ok d1, ["t0"]) ∧
      d1.cgroup_id = "t0" ∧
      (docker_info_init envW szW ⟨gfieldsW, some tasksW⟩ 1 ["t0"]).1 =
        .error (.DuplicateCgroupId "t0") ∧
      ∃ d2, (docker_info_init envW szW ⟨gfieldsW, some tasksW⟩ 1 []).1 = .ok d2 :=
  C1_duplicate_cgroup_id envW szW gfieldsW tasksW 0 1 60 32 4 "bench_" "kyber"
    "/dev/sdb" "trace-replay" "seq_read" "seq_write" "t0"
    (by decide) (by rfl) (by decide) (by rfl) (by rfl) (by rfl)
    (by decide) (by decide) (by decide) (by rfl) (by rfl)

/-- C2 (amended): for a configuration whose effective scheduler is
weight-aware, the weight check is decided by the task entry alone — a task
entry without the `weight` key fails with `MissingWeight` (whatever the
global tier holds, including a global `weight`), and a task entry supplying
`weight` passes the check and resolution succeeds. -/
theorem C2_weight_required_at_task_tier (env : Env) (sz : Sizes) (fields : JObj)
    (tasks : List JObj) (i : Nat) (reg : Registry) (tm qd nt : Int)
    (pfx sch dev exe t c : String) (w : Int)
    (hg : GlobalClean sz fields tm qd nt pfx sch dev exe)
    (hexe : env.fs exe = true)
    (hv : ¬ env.sched.valid sch < 0)
    (hwt : env.sched.has_weight (env.sched.valid sch) = true)
    (hct : CleanStr t sz.trace_data_path)
    (hcc : CleanStr c sz.cgroup_id)
    (hts : trace_source_check env.fs t = .ok ())
    (hdup : c ∉ reg) :
    (tasks[i]? = some [("trace_data_path", .jstr t), ("cgroup_id", .jstr c)] →
      (docker_info_init env sz ⟨fields, some tasks⟩ i reg).1 = .error .MissingWeight) ∧
    (tasks[i]? =
        some [("trace_data_path", .jstr t), ("cgroup_id", .jstr c), ("weight", .jint w)] →
      ∃ d, (docker_info_init env sz ⟨fields, some tasks⟩ i reg).1 = .ok d ∧
        d.weight = uint32_of_int w) := by
  constructor
  · intro hi
    rw [docker_info_init_eval hg (exec_path_resolve_direct hexe) hv,
      __docker_info_init_at rfl hi, task_soft_pull_tc,
      task_checks_missing_weight hv hwt (by simp [jlookup])]
    rfl
  · intro hi
    have h3 : docker_info_init env sz ⟨fields, some tasks⟩ i reg =
        (.ok { global_soft_pull sz fields (seeded_info tm qd nt pfx sch dev exe) with weight := uint32_of_int w, trace_data_path := t, cgroup_id := c, ppid := env.pid, mqid := -1, semid := -1, shmid := -1, next := none }, c :: reg) := by
      rw [docker_info_init_eval hg (exec_path_resolve_direct hexe) hv,
        __docker_info_init_at rfl hi, task_soft_pull_tcw,
        task_checks_pass_weight hv w (by simp [jlookup]) (by simp [jlookup]) hct
          (by simp [jlookup]) hcc hts hdup]
      rfl
    exact ⟨_, congrArg Prod.fst h3, rfl⟩

theorem C2_witness :
    (docker_info_init envW szW ⟨cfgC2.fields, some [taskW]⟩ 0 []).1 =
      .error .MissingWeight ∧
    ∃ d, (docker_info_init envW szW ⟨cfgC2.fields,
        some [[("trace_data_path", .jstr "seq_read"), ("cgroup_id", .jstr "t0"),
          ("weight", .jint 42)]]⟩ 0 []).1 = .ok d ∧
      d.weight = uint32_of_int 42 :=
  ⟨(C2_weight_required_at_task_tier envW szW cfgC2.fields [taskW] 0 [] 60 32 4
      "bench_" "bfq" "/dev/sdb" "trace-replay" "seq_read" "t0" 42
      (by decide) (by rfl) (by decide) (by rfl) (by decide) (by decide)
      (by rfl) (by decide)).1 (by rfl),
   (C2_weight_required_at_task_tier envW szW cfgC2.fields
      [[("trace_data_path", .jstr "seq_read"), ("cgroup_id", .jstr "t0"),
        ("weight", .jint 42)]] 0 [] 60 32 4
      "bench_" "bfq" "/dev/sdb" "trace-replay" "seq_read" "t0" 42
      (by decide) (by rfl) (by decide) (by rfl) (by decide) (by decide)
      (by rfl) (by decide)).2 (by rfl)⟩

/-- C4: the configured `traceReplayExecutablePath` is kept unchanged when it
exists as given; when it does not exist as given but does exist under the
well-known `/usr/bin` directory, resolution succeeds with the descriptor's
path rewritten to the `/usr/bin` form; when neither exists, resolution fails
with `ExecutableNotFound`. -/
theorem C4_exec_path_fallback (env : Env) (sz : Sizes) (fields : JObj)
    (tasks : List JObj) (i : Nat) (tm qd nt : Int) (pfx sch dev exe t c : String)
    (hg : GlobalClean sz fields tm qd nt pfx sch dev exe)
    (hv : ¬ env.sched.valid sch < 0)
    (hwf : env.sched.has_weight (env.sched.valid sch) = false)
    (hi : tasks[i]? = some [("trace_data_path", .jstr t), ("cgroup_id", .jstr c)])
    (hct : CleanStr t sz.trace_data_path)
    (hcc : CleanStr c sz.cgroup_id)
    (hts : trace_source_check env.fs t = .ok ()) :
    (env.fs exe = true →
      ∃ d, docker_info_init env sz ⟨fields, some tasks⟩ i [] = (.ok d, [c]) ∧
        d.trace_replay_path = exe) ∧
    (env.fs exe = false → env.fs ("/usr/bin/" ++ exe) = true →
      ∃ d, docker_info_init env sz ⟨fields, some tasks⟩ i [] = (.ok d, [c]) ∧
        d.trace_replay_path = "/usr/bin/" ++ exe) ∧
    (env.fs exe = false → env.fs ("/usr/bin/" ++ exe) = false →
      docker_info_init env sz ⟨fields, some tasks⟩ i [] =
        (.error (.ExecutableNotFound ("/usr/bin/" ++ exe)), [])) := by
  refine ⟨?_, ?_, ?_⟩
  · intro hfs
    have h3 : docker_info_init env sz ⟨fields, some tasks⟩ i [] =
        (.ok { global_soft_pull sz fields (seeded_info tm qd nt pfx sch dev exe) with trace_data_path := t, cgroup_id := c, ppid := env.pid, mqid := -1, semid := -1, shmid := -1, next := none }, [c]) := by
      rw [docker_info_init_eval hg (exec_path_resolve_direct hfs) hv,
        __docker_info_init_at rfl hi, task_soft_pull_tc,
        task_checks_pass_noweight hv hwf (by simp [jlookup]) (by simp [jlookup]) hct
          (by simp [jlookup]) hcc hts (by simp)]
      rfl
    exact ⟨_, h3, rfl⟩
  · intro hfs1 hfs2
    have h3 : docker_info_init env sz ⟨fields, some tasks⟩ i [] =
        (.ok { global_soft_pull sz fields { seeded_info tm qd nt pfx sch dev exe with trace_replay_path := "/usr/bin/" ++ exe } with trace_data_path := t, cgroup_id := c, ppid := env.pid, mqid := -1, semid := -1, shmid := -1, next := none }, [c]) := by
      rw [docker_info_init_eval hg (exec_path_resolve_fallback hfs1 hfs2) hv,
        __docker_info_init_at rfl hi, task_soft_pull_tc,
        task_checks_pass_noweight hv hwf (by simp [jlookup]) (by simp [jlookup]) hct
          (by simp [jlookup]) hcc hts (by simp)]
      rfl
    exact ⟨_, h3, rfl⟩
  · intro hfs1 hfs2
    exact docker_info_init_exec_fail hg (exec_path_resolve_fail hfs1 hfs2)

theorem C4_witness :
    (∃ d, docker_info_init envW szW ⟨gfieldsW, some [taskW]⟩ 0 [] = (.ok d, ["t0"]) ∧
      d.trace_replay_path = "trace-replay") ∧
    (∃ d, docker_info_init envW szW ⟨[("time", .jint 60), ("q_depth", .jint 32),
        ("nr_thread", .jint 4), ("prefix_cgroup_name", .jstr "bench_"),
        ("scheduler", .jstr "kyber"), ("device", .jstr "/dev/sdb"),
        ("trace_replay_path", .jstr "mytool")], some [taskW]⟩ 0 [] =
        (.ok d, ["t0"]) ∧
      d.trace_replay_path = "/usr/bin/" ++ "mytool") ∧
    docker_info_init envW szW ⟨[("time", .jint 60), ("q_depth", .jint 32),
        ("nr_thread", .jint 4), ("prefix_cgroup_name", .jstr "bench_"),
        ("scheduler", .jstr "kyber"), ("device", .jstr "/dev/sdb"),
        ("trace_replay_path", .jstr "nope")], some [taskW]⟩ 0 [] =
      (.error (.ExecutableNotFound ("/usr/bin/" ++ "nope")), []) :=
  ⟨(C4_exec_path_fallback envW szW gfieldsW [taskW] 0 60 32 4 "bench_" "kyber"
      "/dev/sdb" "trace-replay" "seq_read" "t0"
      (by decide) (by decide) (by rfl) (by rfl) (by decide) (by decide)
      (by rfl)).1 (by rfl),
   (C4_exec_path_fallback envW szW [("time", .jint 60), ("q_depth", .jint 32),
      ("nr_thread", .jint 4), ("prefix_cgroup_name", .jstr "bench_"),
      ("scheduler", .jstr "kyber"), ("device", .jstr "/dev/sdb"),
      ("trace_replay_path", .jstr "mytool")] [taskW] 0 60 32 4 "bench_" "kyber"
      "/dev/sdb" "mytool" "seq_read" "t0"
      (by decide) (by decide) (by rfl) (by rfl) (by decide) (by decide)
      (by rfl)).2.1 (by rfl) (by rfl),
   (C4_exec_path_fallback envW szW [("time", .jint 60), ("q_depth", .jint 32),
      ("nr_thread", .jint 4), ("prefix_cgroup_name", .jstr "bench_"),
      ("scheduler", .jstr "kyber"), ("device", .jstr "/dev/sdb"),
      ("trace_replay_path", .jstr "nope")] [taskW] 0 60 32 4 "bench_" "kyber"
      "/dev/sdb" "nope" "seq_read" "t0"
      (by decide) (by decide) (by rfl) (by rfl) (by decide) (by decide)
      (by rfl)).2.2 (by rfl) (by rfl)⟩

/-- C6: for a non-synthetic `traceDataSource`, resolution fails with
`TraceSourceNotFound` precisely when no file exists at that path at
resolution time; when the file exists the trace-source check passes and
resolution succeeds with the descriptor's `trace_data_path` untouched by the
check. -/
theorem C6_trace_source_existence (env : Env) (sz : Sizes) (fields : JObj)
    (tasks : List JObj) (i : Nat) (reg : Registry) (tm qd nt : Int)
    (pfx sch dev exe t c : String)
    (hg : GlobalClean sz fields tm qd nt pfx sch dev exe)
    (hexe : env.fs exe = true)
    (hv : ¬ env.sched.valid sch < 0)
    (hwf : env.sched.has_weight (env.sched.valid sch) = false)
    (hi : tasks[i]? = some [("trace_data_path", .jstr t), ("cgroup_id", .jstr c)])
    (hct : CleanStr t sz.trace_data_path)
    (hcc : CleanStr c sz.cgroup_id)
    (hsynth : docker_is_synth_type t ≠ DOCKER_SYNTH)
    (hdup : c ∉ reg) :
    ((docker_info_init env sz ⟨fields, some tasks⟩ i reg).1 =
        .error (.TraceSourceNotFound t) ↔ env.fs t = false) ∧
    (env.fs t = true →
      trace_source_check env.fs t = .ok () ∧
      ∃ d, (docker_info_init env sz ⟨fields, some tasks⟩ i reg).1 = .ok d ∧
        d.trace_data_path = t) := by
  cases hfs : env.fs t with
  | true =>
    have hts : trace_source_check env.fs t = .ok () := by
      simp [trace_source_check, hsynth, hfs]
    have h3 : docker_info_init env sz ⟨fields, some tasks⟩ i reg =
        (.ok { global_soft_pull sz fields (seeded_info tm qd nt pfx sch dev exe) with trace_data_path := t, cgroup_id := c, ppid := env.pid, mqid := -1, semid := -1, shmid := -1, next := none }, c :: reg) := by
      rw [docker_info_init_eval hg (exec_path_resolve_direct hexe) hv,
        __docker_info_init_at rfl hi, task_soft_pull_tc,
        task_checks_pass_noweight hv hwf (by simp [jlookup]) (by simp [jlookup]) hct
          (by simp [jlookup]) hcc hts hdup]
      rfl
    constructor
    · constructor
      · intro habs
        rw [h3] at habs
        simp at habs
      · intro habs
        simp at habs
    · intro _
      exact ⟨hts, _, congrArg Prod.fst h3, rfl⟩
  | false =>
    have hterr : trace_source_check env.fs t = .error (.TraceSourceNotFound t) := by
      simp [trace_source_check, hsynth, hfs]
    have h3 : docker_info_init env sz ⟨fields, some tasks⟩ i reg =
        (.error (.TraceSourceNotFound t), reg) := by
      rw [docker_info_init_eval hg (exec_path_resolve_direct hexe) hv,
        __docker_info_init_at rfl hi, task_soft_pull_tc,
        task_checks_trace_err hv hwf (by simp [jlookup]) hct (by simp [jlookup])
          hcc hterr]
      rfl
    constructor
    · rw [h3]
      simp
    · intro habs
      simp at habs

theorem C6_witness :
    (((docker_info_init envW szW ⟨gfieldsW, some [[("trace_data_path",
          .jstr "/tmp/nope"), ("cgroup_id", .jstr "t0")]]⟩ 0 []).1 =
        .error (.TraceSourceNotFound "/tmp/nope")) ↔ envW.fs "/tmp/nope" = false) ∧
    (trace_source_check envW.fs "/tmp/trace.dat" = .ok () ∧
      ∃ d, (docker_info_init envW szW ⟨gfieldsW, some [[("trace_data_path",
          .jstr "/tmp/trace.dat"), ("cgroup_id", .jstr "t0")]]⟩ 0 []).1 = .ok d ∧
        d.trace_data_path = "/tmp/trace.dat") :=
  ⟨(C6_trace_source_existence envW szW gfieldsW
      [[("trace_data_path", .jstr "/tmp/nope"), ("cgroup_id", .jstr "t0")]] 0 []
      60 32 4 "bench_" "kyber" "/dev/sdb" "trace-replay" "/tmp/nope" "t0"
      (by decide) (by rfl) (by decide) (by rfl) (by rfl) (by decide) (by decide)
      (by decide) (by decide)).1,
   (C6_trace_source_existence envW szW gfieldsW
      [[("trace_data_path", .jstr "/tmp/trace.dat"), ("cgroup_id", .jstr "t0")]] 0 []
      60 32 4 "bench_" "kyber" "/dev/sdb" "trace-replay" "/tmp/trace.dat" "t0"
      (by decide) (by rfl) (by decide) (by rfl) (by rfl) (by decide) (by decide)
      (by decide) (by decide)).2 (by rfl)⟩

/-- C7 (amended): `trace_data_path` and `cgroup_id` are mandatory in every
task entry regardless of the global tier — with both keys supplied at the
global tier, a task entry omitting `trace_data_path` fails with
`MissingField "trace_data_path"` and a task entry omitting `cgroup_id`
fails with `MissingField "cgroup_id"`. -/
theorem C7_task_tier_keys_unconditionally_mandatory (env : Env) (sz : Sizes)
    (fields : JObj) (tasks : List JObj) (i : Nat) (reg : Registry)
    (tm qd nt : Int) (pfx sch dev exe t c gt gc : String)
    (hg : GlobalClean sz fields tm qd nt pfx sch dev exe)
    (hexe : env.fs exe = true)
    (hv : ¬ env.sched.valid sch < 0)
    (hwf : env.sched.has_weight (env.sched.valid sch) = false)
    (hgt : jlookup fields "trace_data_path" = some (.jstr gt))
    (hgc : jlookup fields "cgroup_id" = some (.jstr gc))
    (hct : CleanStr t sz.trace_data_path) :
    (tasks[i]? = some [("cgroup_id", .jstr c)] →
      (docker_info_init env sz ⟨fields, some tasks⟩ i reg).1 =
        .error (.MissingField "trace_data_path")) ∧
    (tasks[i]? = some [("trace_data_path", .jstr t)] →
      (docker_info_init env sz ⟨fields, some tasks⟩ i reg).1 =
        .error (.MissingField "cgroup_id")) := by
  constructor
  · intro hi
    rw [docker_info_init_eval hg (exec_path_resolve_direct hexe) hv,
      __docker_info_init_at rfl hi, task_soft_pull_cg,
      task_checks_missing_trace hv hwf (by simp [jlookup])]
    rfl
  · intro hi
    rw [docker_info_init_eval hg (exec_path_resolve_direct hexe) hv,
      __docker_info_init_at rfl hi, task_soft_pull_td,
      task_checks_missing_cgroup hv hwf (by simp [jlookup]) hct (by simp [jlookup])]
    rfl

theorem C7_witness :
    ((docker_info_init envW szW ⟨gfieldsW ++ [("trace_data_path", .jstr "seq_read"),
        ("cgroup_id", .jstr "g0")], some [[("cgroup_id", .jstr "t0")]]⟩ 0 []).1 =
      .error (.MissingField "trace_data_path")) ∧
    ((docker_info_init envW szW ⟨gfieldsW ++ [("trace_data_path", .jstr "seq_read"),
        ("cgroup_id", .jstr "g0")], some [[("trace_data_path", .jstr "seq_read")]]⟩
        0 []).1 = .error (.MissingField "cgroup_id")) :=
  ⟨(C7_task_tier_keys_unconditionally_mandatory envW szW
      (gfieldsW ++ [("trace_data_path", .jstr "seq_read"), ("cgroup_id", .jstr "g0")])
      [[("cgroup_id", .jstr "t0")]] 0 [] 60 32 4 "bench_" "kyber" "/dev/sdb"
      "trace-replay" "seq_read" "t0" "seq_read" "g0"
      (by decide) (by rfl) (by decide) (by rfl) (by decide) (by decide)
      (by decide)).1 (by rfl),
   (C7_task_tier_keys_unconditionally_mandatory envW szW
      (gfieldsW ++ [("trace_data_path", .jstr "seq_read"), ("cgroup_id", .jstr "g0")])
      [[("trace_data_path", .jstr "seq_read")]] 0 [] 60 32 4 "bench_" "kyber"
      "/dev/sdb" "trace-replay" "seq_read" "t0" "seq_read" "g0"
      (by decide) (by rfl) (by decide) (by rfl) (by decide) (by decide)
      (by decide)).2 (by rfl)⟩
